import Mathlib

/-!
Verification of `src/deck/_utils/texture-data.ts` (weatherlayers-gl).

The module is shallowly embedded: JavaScript numbers are rationals plus a
NaN marker, typed arrays are element lists tagged with their element kind,
promises carry their eventual settlement, and each asynchronous external
step (fetch, blob materialisation, image decode, GeoTIFF library calls) is
an oracle value supplied through an environment record, exactly at the
`await` points of the source.  Synchronous throws and returned promises are
kept distinct, mirroring which source functions are `async` and which are
not.
-/

namespace TextureDataTs

/-- A JavaScript number: a rational value, or the NaN marker.  `Number.EPSILON`
arithmetic in `maskData` is exact on the inputs we evaluate, so rationals model
the comparisons faithfully. -/
inductive JSNumber
  | nan
  | num (q : ℚ)
deriving DecidableEq, Repr

/-- JS subtraction: NaN propagates. -/
def jsub : JSNumber → JSNumber → JSNumber
  | .nan, _ => .nan
  | _, .nan => .nan
  | .num a, .num b => .num (a - b)

/-- JS `Math.abs`: NaN propagates. -/
def jabs : JSNumber → JSNumber
  | .nan => .nan
  | .num a => .num |a|

/-- JS `<`: false whenever either side is NaN. -/
def jlt : JSNumber → JSNumber → Bool
  | .nan, _ => false
  | _, .nan => false
  | .num a, .num b => decide (a < b)

/-- JS `isNaN` on a number. -/
def JSNumber.isNaN : JSNumber → Bool
  | .nan => true
  | .num _ => false

/-- `Number.EPSILON`, the difference between 1 and the next representable
double: 2 ^ (-52). -/
def EPSILON : ℚ := 1 / 2 ^ 52

/-- Element kind of a `TextureDataArray`:
`Uint8Array | Uint8ClampedArray | Float32Array`. -/
inductive ArrayKind
  | u8
  | u8c
  | f32
deriving DecidableEq, Repr

/-- A typed array: its element kind and its elements as JS numbers read back
from the array.  (Byte arrays only ever hold integer values 0..255; only
`Float32Array` can hold NaN.) -/
structure TextureDataArray where
  kind : ArrayKind
  elems : List JSNumber
deriving DecidableEq, Repr

/-- Storing the JS value `NaN` into a typed array, per element kind:
`Float32Array` keeps NaN; `Uint8Array` coerces via ToUint8 (NaN becomes 0);
`Uint8ClampedArray` clamps (NaN becomes 0). -/
def storeNaN : ArrayKind → JSNumber
  | .u8 => .num 0
  | .u8c => .num 0
  | .f32 => .nan

/-- The test `Math.abs(maskedData[i] - nodata) < Number.EPSILON * 2` of the
source's masking loop. -/
def nearNodata (x s : JSNumber) : Bool :=
  jlt (jabs (jsub x s)) (.num (EPSILON * 2))

/-- Source `maskData(data, nodata)`: `if (nodata == undefined) return data;`
otherwise copy the buffer (`data.slice(0)`) and overwrite every element within
`Number.EPSILON * 2` of the sentinel with `NaN` (coerced by the array's element
kind on store). -/
def maskData (data : TextureDataArray) (nodata : Option JSNumber) : TextureDataArray :=
  match nodata with
  | none => data
  | some s =>
      { kind := data.kind
        elems := data.elems.map (fun x => if nearNodata x s then storeNaN data.kind else x) }

/-- Character-list version of substring search: does `s` start with `pat`? -/
def leadsWith : List Char → List Char → Bool
  | _, [] => true
  | [], _ :: _ => false
  | a :: as, b :: bs => a == b && leadsWith as bs

/-- Character-list version of substring search: does `pat` occur in `s`? -/
def hasSub (pat : List Char) : List Char → Bool
  | [] => pat.isEmpty
  | c :: rest => leadsWith (c :: rest) pat || hasSub pat rest

/-- JS `url.includes(pat)`. -/
def includes (url pat : String) : Bool :=
  hasSub pat.data url.data

/-- Where the dispatcher in `loadTextureData` sends a URL: the image decoder,
the GeoTIFF decoder, or a synchronous `throw new Error('Unsupported data
format')`. -/
inductive DispatchResult
  | image
  | geotiff
  | throwUnsupported
deriving DecidableEq, Repr

/-- The `if / else if / else` chain of the load function passed to
`loadCached` in `loadTextureData`. -/
def dispatchTexture (url : String) : DispatchResult :=
  if includes url ".png" || includes url ".webp" || includes url "image/png" || includes url "image/webp" then
    .image
  else if includes url ".tif" || includes url "image/tif" then
    .geotiff
  else
    .throwUnsupported

/-- A JavaScript `Error`: its message and its optional `cause` option. -/
inductive JSError
  | mk (msg : String) (cause : Option JSError)

/-- Message of a `JSError`. -/
def JSError.msg : JSError → String
  | .mk m _ => m

/-- Cause of a `JSError`. -/
def JSError.cause : JSError → Option JSError
  | .mk _ c => c

/-- A headers record, `Record<string, string>`. -/
def Headers := List (String × String)

/-- Outcome of one awaited external step: the awaited promise fulfills with a
value or rejects with an error. -/
inductive StepOutcome (α : Type)
  | ok (v : α)
  | err (e : JSError)

/-- How a promise eventually settles. -/
inductive Settlement (α : Type)
  | fulfilled (v : α)
  | rejected (e : JSError)

/-- A promise value: its identity and its eventual settlement.  Distinct calls
of an underlying loader produce promises with distinct `pid`s; returning a
cached promise returns the same `pid`, hence the same settlement. -/
structure JSPromise (α : Type) where
  pid : Nat
  settles : Settlement α

/-- What a call of the underlying load function does synchronously: throw an
exception (only possible for a non-`async` function, such as the dispatcher in
`loadTextureData`), or return a promise. -/
inductive SyncCall (α : Type)
  | throws (e : JSError)
  | returns (p : JSPromise α)

/-- A cache entry: `T | Promise<T>`. -/
inductive Entry (α : Type)
  | value (v : α)
  | promise (p : JSPromise α)

/-- A `Map<string, T | Promise<T>>` as an association list with exact string
keys. -/
def CacheMap (α : Type) := List (String × Entry α)

/-- `cache.get(url)`: `undefined` (`none`) when the key is absent. -/
def cacheGet {α : Type} : CacheMap α → String → Option (Entry α)
  | [], _ => none
  | (k, v) :: rest, url => if k = url then some v else cacheGet rest url

/-- `cache.set(url, e)`: replace the entry under the key, or append it. -/
def cacheSet {α : Type} : CacheMap α → String → Entry α → CacheMap α
  | [], url, e => [(url, e)]
  | (k, v) :: rest, url, e =>
      if k = url then (url, e) :: rest else (k, v) :: cacheSet rest url e

/-- JS truthiness of `cache.get(url)`'s result, as tested by
`if (dataOrPromise)`: absent (`undefined`) is falsy, a promise object is
truthy, a resolved value is as truthy as the value (`truthy`). -/
def entryTruthy {α : Type} (truthy : α → Bool) : Option (Entry α) → Bool
  | none => false
  | some (.promise _) => true
  | some (.value v) => truthy v

/-- What a call of the cached wrapper yields to its caller: a returned entry
(a value or a promise), or a synchronously thrown exception. -/
inductive CallResult (α : Type)
  | returned (e : Entry α)
  | threw (e : JSError)

/-- The body of `loadCached`'s wrapper run against one cache map: the returned
or thrown result, the cache map afterwards, and how many times the underlying
load function was invoked. -/
def runCachedBody {α : Type} (truthy : α → Bool) (url : String) (loader : SyncCall α)
    (cache : CacheMap α) : CallResult α × CacheMap α × Nat :=
  match cacheGet cache url with
  | some e =>
      if entryTruthy truthy (some e) then
        (.returned e, cache, 0)
      else
        match loader with
        | .throws ex => (.threw ex, cache, 1)
        | .returns p => (.returned (.promise p), cacheSet cache url (.promise p), 1)
  | none =>
      match loader with
      | .throws ex => (.threw ex, cache, 1)
      | .returns p => (.returned (.promise p), cacheSet cache url (.promise p), 1)

/-- The second JS argument of the wrapper `(url, cache = DEFAULT_CACHE)`:
absent (defaulted), the literal `false`, a `Map`, or a plain non-`Map` object
such as a headers record (which the wrapper nevertheless treats as a cache). -/
inductive CacheSlot (α : Type)
  | missing
  | falseLit
  | mapVal (m : CacheMap α)
  | headersVal (h : Headers)

/-- Everything observable about one synchronous run of `loadCached`'s wrapper:
its result, the default cache and the supplied cache afterwards, and the
number of underlying-loader invocations. -/
structure CallOutcome (α : Type) where
  result : CallResult α
  defaultAfter : CacheMap α
  suppliedAfter : Option (CacheMap α)
  invocations : Nat

/-- The TypeError raised by `cache.get(url)` when `cache` is a plain object. -/
def cacheGetTypeError : JSError := .mk "cache.get is not a function" none

/-- One call of the wrapper returned by `loadCached(loadFunction)`:
`if (cache === false) return loadFunction(url);` then the truthiness-guarded
cache lookup, and on a miss `loadFunction(url)` (note: invoked with the url
only), `cache.set(url, dataPromise)` and `dataPromise.then(data =>
cache.set(url, data))`.  A synchronous throw from `loadFunction` propagates
before any `set`. -/
def loadCached {α : Type} (truthy : α → Bool) (url : String) (loader : SyncCall α)
    (defaultCache : CacheMap α) (slot : CacheSlot α) : CallOutcome α :=
  match slot with
  | .falseLit =>
      match loader with
      | .throws ex => ⟨.threw ex, defaultCache, none, 1⟩
      | .returns p => ⟨.returned (.promise p), defaultCache, none, 1⟩
  | .missing =>
      match runCachedBody truthy url loader defaultCache with
      | (r, c, n) => ⟨r, c, none, n⟩
  | .mapVal m =>
      match runCachedBody truthy url loader m with
      | (r, c, n) => ⟨r, defaultCache, some c, n⟩
  | .headersVal _ => ⟨.threw cacheGetTypeError, defaultCache, none, 0⟩

/-- The deferred callback `dataPromise.then(data => cache.set(url, data))`:
when the promise fulfills, overwrite the entry with the value; when it
rejects, the callback never runs and the cache is untouched. -/
def resolveCache {α : Type} (cache : CacheMap α) (url : String) (p : JSPromise α) : CacheMap α :=
  match p.settles with
  | .fulfilled v => cacheSet cache url (.value v)
  | .rejected _ => cache

/-- The decode result `{data, width, height}`. -/
structure TextureData where
  data : TextureDataArray
  width : Nat
  height : Nat

/-- Outcome of the `await fetch(url, { headers })` in `loadImage`: the fetch
rejects, or yields a response with its `ok` flag and `statusText`. -/
inductive FetchOutcome
  | networkError (e : JSError)
  | response (ok : Bool) (statusText : String)

/-- Oracle for the awaited external steps of one `loadImage` call.  The
synchronous canvas rasterisation (`drawImage` / `getImageData`) is modelled as
total, as the source treats it; `getImageData` yields a `Uint8ClampedArray` of
RGBA bytes and the canvas dimensions. -/
structure ImageEnv where
  fetchOutcome : FetchOutcome
  blobOutcome : StepOutcome Unit
  decodeOutcome : StepOutcome Unit
  imgWidth : Nat
  imgHeight : Nat
  pixels : List JSNumber

/-- What one `loadImage` call settles to, together with whether a blob URL was
created (`URL.createObjectURL`) and whether it was revoked
(`URL.revokeObjectURL`). -/
structure ImageTrace where
  result : Except JSError TextureData
  blobCreated : Bool
  blobRevoked : Bool

/-- The decode error `new Error(\x60Image ${url} can't be decoded.\x60, { cause: e })`. -/
def decodeError (url : String) (e : JSError) : JSError :=
  .mk ("Image " ++ url ++ " can't be decoded.") (some e)

/-- The fetch error `new Error(\x60Failed to fetch image ${url}: ${response.statusText}\x60)`. -/
def fetchError (url statusText : String) : JSError :=
  .mk ("Failed to fetch image " ++ url ++ ": " ++ statusText) none

/-- Source `loadImage(url, headers?)`: when headers are present, fetch the
image, throw on a non-ok response, materialise the blob and create a blob URL
(setting `revokeBlob`); then `await image.decode()` in a `try` whose `catch`
revokes the blob URL (if created) and throws the decode error; on success,
rasterise onto a canvas, read the `ImageData`, revoke the blob URL (if
created) and return `{data, width, height}`. -/
def loadImage (url : String) (headers : Option Headers) (env : ImageEnv) : ImageTrace :=
  match headers with
  | none =>
      match env.decodeOutcome with
      | .err e => ⟨.error (decodeError url e), false, false⟩
      | .ok _ => ⟨.ok ⟨⟨.u8c, env.pixels⟩, env.imgWidth, env.imgHeight⟩, false, false⟩
  | some _ =>
      match env.fetchOutcome with
      | .networkError e => ⟨.error e, false, false⟩
      | .response ok statusText =>
          if !ok then
            ⟨.error (fetchError url statusText), false, false⟩
          else
            match env.blobOutcome with
            | .err e => ⟨.error e, false, false⟩
            | .ok _ =>
                match env.decodeOutcome with
                | .err e => ⟨.error (decodeError url e), true, true⟩
                | .ok _ => ⟨.ok ⟨⟨.u8c, env.pixels⟩, env.imgWidth, env.imgHeight⟩, true, true⟩

/-- What `geotiffImage.readRasters({ interleave: true })` yields: an array of
one of the three supported element kinds, or an array of another kind (for
example `Uint16Array` or `Float64Array`). -/
inductive RasterArray
  | supported (a : TextureDataArray)
  | otherKind

/-- Oracle for the awaited external steps of one `loadGeotiff` call, plus the
metadata the GeoTIFF image reports (`getGDALNoData`, `getWidth`,
`getHeight`). -/
structure GeotiffEnv where
  fromUrlOutcome : StepOutcome Unit
  getImageOutcome : StepOutcome Unit
  readRastersOutcome : StepOutcome RasterArray
  nodata : Option JSNumber
  width : Nat
  height : Nat

/-- The error `new Error('Unsupported data format')`. -/
def unsupportedFormatError : JSError := .mk "Unsupported data format" none

/-- Source `loadGeotiff(url, headers?)`: `GeoTIFF.fromUrl` inside a `try`
whose `catch` rethrows the decode error with the original failure as cause;
then, outside any `try`, `getImage(0)`, `readRasters({interleave: true})`, the
element-kind check (throwing `'Unsupported data format'`), `getGDALNoData`
into `maskData`, and `getWidth`/`getHeight`.  The `headers` argument only
changes which fetch the library uses internally (a custom fetch that merges
the headers), which is abstracted into `env.fromUrlOutcome`. -/
def loadGeotiff (url : String) (headers : Option Headers) (env : GeotiffEnv) :
    Except JSError TextureData :=
  match env.fromUrlOutcome with
  | .err e => .error (decodeError url e)
  | .ok _ =>
      match env.getImageOutcome with
      | .err e => .error e
      | .ok _ =>
          match env.readRastersOutcome with
          | .err e => .error e
          | .ok .otherKind => .error unsupportedFormatError
          | .ok (.supported a) =>
              .ok ⟨maskData a env.nodata, env.width, env.height⟩

/-- A JSON value, as `response.json()` can resolve to one. -/
inductive JSON
  | null
  | bool (b : Bool)
  | num (n : JSNumber)
  | str (s : String)
  | arr (n : Nat)
  | obj (n : Nat)
deriving DecidableEq, Repr

/-- JS truthiness of a JSON value: `null`, `false`, `0`, `NaN` and `""` are
falsy; arrays and objects are always truthy.  (Arrays and objects are
abstracted to a size tag; their contents do not affect truthiness.) -/
def JSON.truthy : JSON → Bool
  | .null => false
  | .bool b => b
  | .num .nan => false
  | .num (.num q) => decide (q ≠ 0)
  | .str s => decide (s ≠ "")
  | .arr _ => true
  | .obj _ => true

/-- JS truthiness of a `TextureData`: an object, always truthy. -/
def TextureData.truthy : TextureData → Bool := fun _ => true

/-- Oracle for one potential run of each underlying decoder. -/
structure TexEnv where
  imageEnv : ImageEnv
  geoEnv : GeotiffEnv

/-- A settled `Except` as a promise settlement. -/
def Except.toSettlement {α : Type} : Except JSError α → Settlement α
  | .ok v => .fulfilled v
  | .error e => .rejected e

/-- The load function passed to `loadCached` in `loadTextureData`, applied to
`(url, headers)`: route per `dispatchTexture`; the image and GeoTIFF branches
are `async`, so they return a promise (with the fresh id `pid`) settling to
the decoder's result; the `else` branch throws synchronously, because this
dispatcher itself is not `async`. -/
def textureLoadFunction (url : String) (headers : Option Headers) (env : TexEnv)
    (pid : Nat) : SyncCall TextureData :=
  match dispatchTexture url with
  | .image => .returns ⟨pid, Except.toSettlement (loadImage url headers env.imageEnv).result⟩
  | .geotiff => .returns ⟨pid, Except.toSettlement (loadGeotiff url headers env.geoEnv)⟩
  | .throwUnsupported => .throws unsupportedFormatError

/-- One call of the exported `loadTextureData = loadCached(...)`.  The wrapper
invokes the load function as `loadFunction(url)` — with the url only — so the
dispatcher's `headers` parameter is always `undefined` (`none`). -/
def loadTextureData (url : String) (slot : CacheSlot TextureData)
    (defaultCache : CacheMap TextureData) (env : TexEnv) (pid : Nat) :
    CallOutcome TextureData :=
  loadCached TextureData.truthy url (textureLoadFunction url none env pid) defaultCache slot

/-- Oracle for the inner `async (url, headers?) => { const response = await
fetch(url, { headers }); return response.json(); }` of `loadJson`: what the
fetch-and-parse settles to. -/
structure JsonEnv where
  settles : Settlement JSON

/-- The load function passed to `loadCached` in `loadJson`, applied to
`(url, headers)`: an `async` function, so it always returns a promise; the
headers it was given are exactly the headers its `fetch` receives. -/
def jsonLoadFunction (headers : Option Headers) (env : JsonEnv) (pid : Nat) :
    SyncCall JSON × Option Headers :=
  (.returns ⟨pid, env.settles⟩, headers)

/-- One call of the exported `loadJson = loadCached(...)`: as with
`loadTextureData`, the wrapper invokes the load function with the url only,
so its `headers` parameter is always `undefined` (`none`). -/
def loadJson (url : String) (slot : CacheSlot JSON) (defaultCache : CacheMap JSON)
    (env : JsonEnv) (pid : Nat) : CallOutcome JSON :=
  loadCached JSON.truthy url (jsonLoadFunction none env pid).1 defaultCache slot

/-- Setting a key makes it present with the written entry. -/
theorem cacheGet_cacheSet_self {α : Type} (m : CacheMap α) (url : String) (e : Entry α) :
    cacheGet (cacheSet m url e) url = some e := by
  induction m with
  | nil => simp [cacheSet, cacheGet]
  | cons kv rest ih =>
      obtain ⟨k, v⟩ := kv
      by_cases h : k = url <;> simp [cacheSet, cacheGet, h, ih]

/-- A list starts with itself followed by anything. -/
theorem leadsWith_append (l rest : List Char) : leadsWith (l ++ rest) l = true := by
  induction l with
  | nil => cases rest <;> simp [leadsWith]
  | cons c cs ih => simp [leadsWith, ih]

/-- `hasSub` finds a pattern that stands anywhere in the text. -/
theorem hasSub_append (a pat b : List Char) : hasSub pat (a ++ (pat ++ b)) = true := by
  induction a with
  | nil =>
      simp only [List.nil_append]
      cases h : pat ++ b with
      | nil =>
          have hp : pat = [] := by
            cases pat with
            | nil => rfl
            | cons x xs => simp at h
          simp [hp, hasSub]
      | cons c rest =>
          rw [hasSub, ← h, leadsWith_append]
          simp
  | cons x xs ih => simp [hasSub, ih]

/-- A string built as `a ++ url ++ b` contains `url` (JS `includes`). -/
theorem includes_of_parts (a url b : String) : includes (a ++ url ++ b) url = true := by
  unfold includes
  rw [String.data_append, String.data_append, List.append_assoc]
  exact hasSub_append a.data url.data b.data

/-- A concrete `TexEnv` used by witnesses: the fetch succeeds, the blob and
decode steps succeed, and the canvas yields a 2 by 2 RGBA buffer; the GeoTIFF
side also succeeds with a one-sample float band. -/
def sampleImageEnv : ImageEnv :=
  ⟨.response true "OK", .ok (), .ok (), 2, 2,
    [.num 255, .num 0, .num 0, .num 255]⟩

/-- GeoTIFF half of the sample environment. -/
def sampleGeoEnv : GeotiffEnv :=
  ⟨.ok (), .ok (), .ok (.supported ⟨.f32, [.num 1]⟩), none, 1, 1⟩

/-- Sample environment combining both decoders. -/
def sampleTexEnv : TexEnv := ⟨sampleImageEnv, sampleGeoEnv⟩

/-- C2 (counterexample).  The claim's iff fails on a byte buffer: masking a
`Uint8Array` whose element equals the sentinel stores `NaN` through the
ToUint8 coercion, so the output element is `0` — not NaN — although
`|o - s| = 0 < 2 * EPSILON` holds. -/
theorem maskData_byte_counterexample :
    (maskData ⟨.u8, [.num 5]⟩ (some (.num 5))).elems = [JSNumber.num 0] ∧
    (JSNumber.num 0).isNaN = false ∧
    nearNodata (.num 5) (.num 5) = true := by
  refine ⟨?_, rfl, ?_⟩ <;>
    norm_num [maskData, nearNodata, jlt, jabs, jsub, EPSILON, storeNaN]

/-- C2 (amended).  `maskData` with no sentinel returns the identical buffer;
with a sentinel it maps each element within `2 * EPSILON` of the sentinel to
`NaN` as stored by the element kind and copies every other element unchanged;
hence on a `Float32Array` a non-NaN original yields a NaN output exactly when
it is within `2 * EPSILON` of the sentinel, while byte-array outputs are never
NaN. -/
theorem maskData_amended (a : TextureDataArray) (s : JSNumber) (i : Nat) (o : JSNumber)
    (ho : a.elems[i]? = some o) (hnn : o.isNaN = false) :
    maskData a none = a ∧
    (maskData a (some s)).kind = a.kind ∧
    (maskData a (some s)).elems[i]? = some (if nearNodata o s then storeNaN a.kind else o) ∧
    (a.kind = .f32 →
      (maskData a (some s)).elems[i]?.map JSNumber.isNaN = some (nearNodata o s)) ∧
    ((a.kind = .u8 ∨ a.kind = .u8c) →
      (maskData a (some s)).elems[i]?.map JSNumber.isNaN = some false) := by
  have hmap : (maskData a (some s)).elems[i]?
      = some (if nearNodata o s then storeNaN a.kind else o) := by
    simp [maskData, List.getElem?_map, ho]
  refine ⟨rfl, rfl, hmap, ?_, ?_⟩
  · intro hk
    rw [hmap]
    by_cases hnear : nearNodata o s <;>
      simp [hnear, hk, storeNaN, JSNumber.isNaN] <;> simp_all [JSNumber.isNaN]
  · intro hk
    rw [hmap]
    rcases hk with hk | hk <;> by_cases hnear : nearNodata o s <;>
      simp [hnear, hk, storeNaN, JSNumber.isNaN] <;> simp_all [JSNumber.isNaN]

/-- C2 (witness): a float sample equal to the sentinel comes out as NaN. -/
theorem maskData_amended_witness :
    (maskData ⟨.f32, [.num 3, .num 7]⟩ (some (.num 3))).elems[0]? = some JSNumber.nan := by
  have h := maskData_amended ⟨.f32, [.num 3, .num 7]⟩ (.num 3) 0 (.num 3) (by rfl) (by rfl)
  rw [h.2.2.1]
  norm_num [nearNodata, jlt, jabs, jsub, EPSILON, storeNaN]

/-- C3 (counterexample).  A cached resolved value that is falsy — here the
JSON number `0`, a value `loadJson` can legitimately resolve to — is treated
as absent by the wrapper's truthiness test: the loader is invoked again and a
fresh promise is returned instead of the stored entry. -/
theorem loadJson_falsy_entry_counterexample :
    cacheGet [("u", Entry.value (JSON.num (.num 0)))] "u"
      = some (.value (.num (.num 0))) ∧
    (loadJson "u" (.mapVal [("u", Entry.value (JSON.num (.num 0)))]) []
        ⟨.fulfilled .null⟩ 7).invocations = 1 ∧
    (loadJson "u" (.mapVal [("u", Entry.value (JSON.num (.num 0)))]) []
        ⟨.fulfilled .null⟩ 7).result
      = .returned (.promise ⟨7, .fulfilled .null⟩) := by
  refine ⟨by rfl, by rfl, by rfl⟩

/-- C3 (amended).  A *truthy* existing entry — a pending promise, or a truthy
resolved value — is returned as-is, without invoking the loader and without
touching the cache; this holds both for a supplied cache map and for the
default cache. -/
theorem loadCached_truthy_hit {α : Type} (truthy : α → Bool) (url : String)
    (loader : SyncCall α) (d m : CacheMap α) (e : Entry α)
    (hget : cacheGet m url = some e) (htr : entryTruthy truthy (some e) = true) :
    loadCached truthy url loader d (.mapVal m) = ⟨.returned e, d, some m, 0⟩ ∧
    loadCached truthy url loader m .missing = ⟨.returned e, m, none, 0⟩ := by
  constructor <;> simp [loadCached, runCachedBody, hget, htr]

/-- C3 (witness): a truthy cached value short-circuits the loader. -/
theorem loadCached_truthy_hit_witness :
    (loadCached JSON.truthy "u" (SyncCall.throws unsupportedFormatError) []
      (.mapVal [("u", Entry.value (JSON.bool true))])).invocations = 0 := by
  have h := loadCached_truthy_hit JSON.truthy "u" (SyncCall.throws unsupportedFormatError)
    [] [("u", Entry.value (JSON.bool true))] (.value (.bool true)) (by rfl) (by rfl)
  rw [h.1]

/-- C4 (confirmed).  A first call on a cache with no entry invokes the loader
once, stores and returns its pending promise; a second call while that
promise is unresolved returns the very same promise with zero further loader
invocations — so the loader runs exactly once and both callers resolve to the
same settlement. -/
theorem loadCached_dedup {α : Type} (truthy : α → Bool) (url : String)
    (c d : CacheMap α) (p : JSPromise α) (L2 : SyncCall α)
    (hmiss : cacheGet c url = none) :
    (loadCached truthy url (.returns p) d (.mapVal c)).result
      = .returned (.promise p) ∧
    (loadCached truthy url (.returns p) d (.mapVal c)).invocations = 1 ∧
    (loadCached truthy url (.returns p) d (.mapVal c)).suppliedAfter
      = some (cacheSet c url (.promise p)) ∧
    (loadCached truthy url L2 d (.mapVal (cacheSet c url (.promise p)))).result
      = .returned (.promise p) ∧
    (loadCached truthy url L2 d (.mapVal (cacheSet c url (.promise p)))).invocations = 0 := by
  refine ⟨?_, ?_, ?_, ?_, ?_⟩ <;>
    simp [loadCached, runCachedBody, hmiss, cacheGet_cacheSet_self, entryTruthy]

/-- C4 (witness): one invocation on the first call, none on the second. -/
theorem loadCached_dedup_witness :
    (loadCached JSON.truthy "u" (SyncCall.returns ⟨0, .fulfilled .null⟩) []
      (.mapVal [])).invocations = 1 ∧
    (loadCached JSON.truthy "u" (SyncCall.throws unsupportedFormatError) []
      (.mapVal (cacheSet [] "u" (.promise ⟨0, .fulfilled .null⟩)))).invocations = 0 := by
  have h := loadCached_dedup JSON.truthy "u" [] [] ⟨0, .fulfilled .null⟩
    (SyncCall.throws unsupportedFormatError) (by rfl)
  exact ⟨h.2.1, h.2.2.2.2⟩

/-- C5 (confirmed).  With the sentinel `false` as cache, the wrapper invokes
the loader exactly once, leaves the default cache untouched, mutates no
supplied cache, and its result does not depend on any cache's contents — the
call neither reads nor writes a cache. -/
theorem loadCached_bypass {α : Type} (truthy : α → Bool) (url : String)
    (loader : SyncCall α) (d d1 d2 : CacheMap α) :
    (loadCached truthy url loader d .falseLit).invocations = 1 ∧
    (loadCached truthy url loader d .falseLit).defaultAfter = d ∧
    (loadCached truthy url loader d .falseLit).suppliedAfter = none ∧
    (loadCached truthy url loader d1 .falseLit).result
      = (loadCached truthy url loader d2 .falseLit).result := by
  cases loader <;> simp [loadCached]

/-- Does the URL carry a PNG marker (`.png` or `image/png`)? -/
def hasPngMarker (url : String) : Bool :=
  includes url ".png" || includes url "image/png"

/-- Does the URL carry a WebP marker (`.webp` or `image/webp`)? -/
def hasWebpMarker (url : String) : Bool :=
  includes url ".webp" || includes url "image/webp"

/-- Does the URL carry a TIFF marker (`.tif` or `image/tif`)? -/
def hasTiffMarker (url : String) : Bool :=
  includes url ".tif" || includes url "image/tif"

/-- C6 (confirmed).  The dispatcher routes by substring with PNG/WebP before
TIFF: any PNG or WebP marker goes to the image decoder; otherwise a TIFF
marker goes to the GeoTIFF decoder; otherwise the call throws the
unsupported-data-format error; in particular a URL with both a PNG and a TIFF
marker goes to the image decoder. -/
theorem dispatchTexture_precedence (url : String) :
    ((hasPngMarker url || hasWebpMarker url) = true → dispatchTexture url = .image) ∧
    ((hasPngMarker url || hasWebpMarker url) = false → hasTiffMarker url = true →
      dispatchTexture url = .geotiff) ∧
    ((hasPngMarker url || hasWebpMarker url) = false → hasTiffMarker url = false →
      dispatchTexture url = .throwUnsupported) ∧
    (hasPngMarker url = true → hasTiffMarker url = true → dispatchTexture url = .image) := by
  cases h1 : includes url ".png" <;> cases h2 : includes url ".webp" <;>
    cases h3 : includes url "image/png" <;> cases h4 : includes url "image/webp" <;>
    cases h5 : includes url ".tif" <;> cases h6 : includes url "image/tif" <;>
    simp_all [dispatchTexture, hasPngMarker, hasWebpMarker, hasTiffMarker]

/-- C6 (witness): the spec's three examples plus the both-markers case. -/
theorem dispatchTexture_precedence_witness :
    dispatchTexture "https://x/a.png" = .image ∧
    dispatchTexture "https://x/a.tif" = .geotiff ∧
    dispatchTexture "https://x/a.xyz" = .throwUnsupported ∧
    dispatchTexture "https://x/a.png.tif" = .image := by
  refine ⟨(dispatchTexture_precedence "https://x/a.png").1 (by decide),
    (dispatchTexture_precedence "https://x/a.tif").2.1 (by decide) (by decide),
    (dispatchTexture_precedence "https://x/a.xyz").2.2.1 (by decide) (by decide),
    (dispatchTexture_precedence "https://x/a.png.tif").2.2.2 (by decide) (by decide)⟩

/-- C7 (counterexample).  Loading an unsupported URL does not yield a rejected
promise: the dispatcher passed to `loadCached` is not `async`, so its `throw
new Error('Unsupported data format')` propagates synchronously out of the
`loadTextureData` call itself. -/
theorem loadTextureData_sync_throw_counterexample :
    (loadTextureData "https://x/a.xyz" .missing [] sampleTexEnv 0).result
      = .threw unsupportedFormatError ∧
    (∀ p : JSPromise TextureData,
      (loadTextureData "https://x/a.xyz" .missing [] sampleTexEnv 0).result
        ≠ .returned (.promise p)) := by
  exact ⟨rfl, fun p h => CallResult.noConfusion h⟩

/-- Every `TextureData` cache entry is truthy: promises are objects and the
resolved values are objects. -/
theorem entryTruthy_textureData (e : Entry TextureData) :
    entryTruthy TextureData.truthy (some e) = true := by
  cases e <;> rfl

/-- C7 (amended).  Network and decode failures do surface asynchronously: for
a URL routed to either decoder the call never throws synchronously, and on a
cache miss it returns a promise settling to the decoder's success or failure.
The unsupported-format error for unrecognized URLs, however, is thrown
synchronously (on a cache miss or with caching bypassed), not delivered as a
rejected promise. -/
theorem loadTextureData_error_propagation (url : String) (env : TexEnv) (pid : Nat)
    (d m : CacheMap TextureData) (hmiss : cacheGet m url = none) :
    (dispatchTexture url = .throwUnsupported →
      (loadTextureData url (.mapVal m) d env pid).result = .threw unsupportedFormatError ∧
      (loadTextureData url .falseLit d env pid).result = .threw unsupportedFormatError) ∧
    (dispatchTexture url ≠ .throwUnsupported →
      (∀ e, (loadTextureData url .falseLit d env pid).result ≠ .threw e) ∧
      (∀ e, (loadTextureData url .missing d env pid).result ≠ .threw e) ∧
      (∀ e, (loadTextureData url (.mapVal m) d env pid).result ≠ .threw e)) ∧
    (dispatchTexture url = .image →
      (loadTextureData url (.mapVal m) d env pid).result
        = .returned (.promise ⟨pid, Except.toSettlement (loadImage url none env.imageEnv).result⟩)) ∧
    (dispatchTexture url = .geotiff →
      (loadTextureData url (.mapVal m) d env pid).result
        = .returned (.promise ⟨pid, Except.toSettlement (loadGeotiff url none env.geoEnv)⟩)) := by
  refine ⟨fun hd => ?_, fun hd => ⟨fun e => ?_, fun e => ?_, fun e => ?_⟩, fun hd => ?_, fun hd => ?_⟩
  · exact ⟨by simp [loadTextureData, loadCached, runCachedBody, textureLoadFunction, hd, hmiss],
      by simp [loadTextureData, loadCached, textureLoadFunction, hd]⟩
  · cases hc : dispatchTexture url <;>
      simp_all [loadTextureData, loadCached, textureLoadFunction]
  · cases hc : dispatchTexture url <;> cases hg : cacheGet d url <;>
      simp_all [loadTextureData, loadCached, runCachedBody, textureLoadFunction,
        entryTruthy_textureData]
  · cases hc : dispatchTexture url <;> cases hg : cacheGet m url <;>
      simp_all [loadTextureData, loadCached, runCachedBody, textureLoadFunction,
        entryTruthy_textureData]
  · simp [loadTextureData, loadCached, runCachedBody, textureLoadFunction, hd, hmiss]
  · simp [loadTextureData, loadCached, runCachedBody, textureLoadFunction, hd, hmiss]

/-- C7 (witness): a PNG URL on a cache miss yields a returned promise that
fulfills with the decoded texture. -/
theorem loadTextureData_error_propagation_witness :
    (loadTextureData "https://x/a.png" (.mapVal []) [] sampleTexEnv 0).result
      = .returned (.promise ⟨0, .fulfilled ⟨⟨.u8c, sampleImageEnv.pixels⟩, 2, 2⟩⟩) := by
  have h := (loadTextureData_error_propagation "https://x/a.png" sampleTexEnv 0 [] []
    (by rfl)).2.2.1 (by decide)
  rw [h]
  rfl

/-- C8 (counterexample).  A parse failure after the handle is obtained — here
`getImage(0)` rejecting with a raw error — escapes `loadGeotiff` unwrapped:
the resulting error is the raw one, its message does not name the URL and it
wraps no cause, because only `GeoTIFF.fromUrl` sits inside the `try`. -/
theorem loadGeotiff_unwrapped_counterexample :
    loadGeotiff "https://x/a.tif" none
        ⟨.ok (), .err (.mk "boom" none), .ok (.supported ⟨.f32, []⟩), none, 1, 1⟩
      = .error (.mk "boom" none) ∧
    (JSError.mk "boom" none).cause = none ∧
    includes "boom" "https://x/a.tif" = false := by
  exact ⟨rfl, rfl, by decide⟩

/-- C8 (amended).  Failures of the opening step (`GeoTIFF.fromUrl`) are caught
and rewrapped into a decode error whose message names the URL and which wraps
the original failure as its cause; a failure of the subsequent `getImage`
read propagates as the raw error. -/
theorem loadGeotiff_wraps_fromUrl (url : String) (headers : Option Headers)
    (env : GeotiffEnv) (e : JSError) :
    (env.fromUrlOutcome = .err e →
      loadGeotiff url headers env = .error (decodeError url e) ∧
      (decodeError url e).cause = some e ∧
      includes (decodeError url e).msg url = true) ∧
    (env.fromUrlOutcome = .ok () → env.getImageOutcome = .err e →
      loadGeotiff url headers env = .error e) := by
  constructor
  · intro hf
    refine ⟨by simp [loadGeotiff, hf], rfl, ?_⟩
    exact includes_of_parts "Image " url " can't be decoded."
  · intro hf hg
    simp [loadGeotiff, hf, hg]

/-- C8 (witness): a rejected `fromUrl` comes back as the wrapped decode
error. -/
theorem loadGeotiff_wraps_fromUrl_witness :
    loadGeotiff "https://x/a.tif" none
        ⟨.err (.mk "offline" none), .ok (), .ok (.supported ⟨.f32, []⟩), none, 1, 1⟩
      = .error (decodeError "https://x/a.tif" (.mk "offline" none)) := by
  exact ((loadGeotiff_wraps_fromUrl "https://x/a.tif" none
    ⟨.err (.mk "offline" none), .ok (), .ok (.supported ⟨.f32, []⟩), none, 1, 1⟩
    (.mk "offline" none)).1 (by rfl)).1

/-- C9 (confirmed).  A blob URL is created exactly when headers were supplied
and the fetch produced an ok response; whenever it is created it is also
revoked — on decode success and on decode failure alike — so no call leaves a
dangling object URL. -/
theorem loadImage_blob_cleanup (url : String) (headers : Option Headers) (env : ImageEnv) :
    ((loadImage url headers env).blobCreated = true →
      (loadImage url headers env).blobRevoked = true) ∧
    ((loadImage url headers env).blobRevoked = true →
      (loadImage url headers env).blobCreated = true) ∧
    (headers = none → (loadImage url headers env).blobCreated = false) := by
  obtain ⟨f, b, dec, w, hh, px⟩ := env
  cases headers with
  | none => cases dec <;> simp [loadImage]
  | some hs =>
      cases f with
      | networkError e => simp [loadImage]
      | response ok st => cases ok <;> cases b <;> cases dec <;> simp [loadImage]

/-- C9 (witness): with headers supplied and a failing decode, the blob URL is
created and revoked. -/
theorem loadImage_blob_cleanup_witness :
    (loadImage "https://x/a.png" (some [("Authorization", "t")])
        ⟨.response true "OK", .ok (), .err (.mk "bad image" none), 0, 0, []⟩).blobRevoked
      = true := by
  exact (loadImage_blob_cleanup "https://x/a.png" (some [("Authorization", "t")])
    ⟨.response true "OK", .ok (), .err (.mk "bad image" none), 0, 0, []⟩).1 (by rfl)

/-- C10 (confirmed).  After a cache-miss load whose promise rejects, the
`then` callback never fires, so the rejected promise stays in the cache; a
later call with the same URL and cache returns that same promise without
invoking the loader — the failure is replayed, not retried. -/
theorem loadCached_rejection_replay {α : Type} (truthy : α → Bool) (url : String)
    (c d : CacheMap α) (p : JSPromise α) (e : JSError) (L2 : SyncCall α)
    (hmiss : cacheGet c url = none) (hrej : p.settles = .rejected e) :
    (loadCached truthy url (.returns p) d (.mapVal c)).suppliedAfter
      = some (cacheSet c url (.promise p)) ∧
    resolveCache (cacheSet c url (.promise p)) url p = cacheSet c url (.promise p) ∧
    (loadCached truthy url L2 d (.mapVal (cacheSet c url (.promise p)))).result
      = .returned (.promise p) ∧
    (loadCached truthy url L2 d (.mapVal (cacheSet c url (.promise p)))).invocations = 0 := by
  refine ⟨?_, ?_, ?_, ?_⟩ <;>
    simp [loadCached, runCachedBody, hmiss, hrej, resolveCache, cacheGet_cacheSet_self,
      entryTruthy]

/-- C10 (witness): the rejected promise is what the miss stores. -/
theorem loadCached_rejection_replay_witness :
    (loadCached JSON.truthy "u" (SyncCall.returns ⟨5, .rejected (.mk "fail" none)⟩) []
      (.mapVal [])).suppliedAfter
      = some [("u", Entry.promise ⟨5, .rejected (.mk "fail" none)⟩)] := by
  have h := loadCached_rejection_replay JSON.truthy "u" [] []
    ⟨5, .rejected (.mk "fail" none)⟩ (.mk "fail" none)
    (SyncCall.throws unsupportedFormatError) (by rfl) (by rfl)
  exact h.1

/-- C1 (code bug).  The wrapper produced by `loadCached` has signature
`(url, cache?)`: a headers map passed as the second argument is treated as
the cache and crashes the call with a synchronous TypeError before any load;
and even when the loader does run, `loadCached` invokes it with the url only,
so the authenticated-fetch path is unreachable — here the authenticated fetch
would fail, a direct `loadImage(url, headers)` call errors, yet the exported
`loadTextureData` decodes successfully through the headerless path. -/
theorem loadTextureData_headers_dropped :
    (loadImage "https://x/a.png" (some [("Authorization", "Bearer token")])
        ⟨.networkError (.mk "network down" none), .ok (), .ok (), 2, 2,
          sampleImageEnv.pixels⟩).result
      = .error (.mk "network down" none) ∧
    loadTextureData "https://x/a.png"
        (.headersVal [("Authorization", "Bearer token")]) []
        ⟨⟨.networkError (.mk "network down" none), .ok (), .ok (), 2, 2,
          sampleImageEnv.pixels⟩, sampleGeoEnv⟩ 0
      = ⟨.threw cacheGetTypeError, [], none, 0⟩ ∧
    (loadTextureData "https://x/a.png" (.mapVal []) []
        ⟨⟨.networkError (.mk "network down" none), .ok (), .ok (), 2, 2,
          sampleImageEnv.pixels⟩, sampleGeoEnv⟩ 0).result
      = .returned (.promise ⟨0, .fulfilled ⟨⟨.u8c, sampleImageEnv.pixels⟩, 2, 2⟩⟩) := by
  exact ⟨rfl, rfl, rfl⟩

end TextureDataTs
